import Mathlib

/-!
# Layout-animation dispatcher and UI-runtime decorator

A shallow embedding of `Common/cpp/LayoutAnimations/LayoutAnimationsProxy.cpp` and
`Common/cpp/Tools/UIRuntimeDecorator.cpp`.

* A `jsi::Object` is the list of its own properties in insertion order.
* The numbers carried through (`values.x`, the measured values) are never computed with,
  so their type is a parameter `ν`.
* A C++ lambda handed to `scheduleOnUI` is a Lean function on the UI-side state; the
  variables it captures by value are the variables the Lean function closes over.
-/

namespace reanimated

/-! ## jsi::Object -/

/-- A `jsi::Object`: its own properties, in insertion order. -/
abbrev JsObject (β : Type) := List (String × β)

/-- Reading `object.getProperty(rt, name)`; `none` stands for `undefined`. -/
def getProperty {β : Type} : JsObject β → String → Option β
  | [], _ => none
  | (k, v) :: rest, name => if k = name then some v else getProperty rest name

/-- Writing `object.setProperty(rt, name, value)`: an existing property keeps its place and
takes the new value, a new property is added at the end. -/
def setProperty {β : Type} : JsObject β → String → β → JsObject β
  | [], name, value => [(name, value)]
  | (k, v) :: rest, name, value =>
    if k = name then (k, value) :: rest else (k, v) :: setProperty rest name value

/-! ## LayoutAnimationsProxy -/

/-- Modelled from the spec: `LayoutAnimationType` is declared in another header of the
repository; the spec's AnimationKind lists these members. -/
inductive LayoutAnimationType where
  | ENTERING
  | EXITING
  | LAYOUT
  | SHARED_ELEMENT_TRANSITION
  deriving DecidableEq

/-- The `Values` record: a view's frame. -/
structure Values (ν : Type) where
  x : ν
  y : ν
  width : ν
  height : ν
  deriving DecidableEq

/-- One invocation of `layoutAnimationsManager().startLayoutAnimation(rt, tag, type, yogaValues)`
as the manager receives it. -/
structure ManagerCall (ν : Type) where
  tag : Int
  type : LayoutAnimationType
  yogaValues : JsObject ν
  deriving DecidableEq

/-- One call of `printf`: the format string and the arguments after it. -/
structure PrintfCall (ν : Type) where
  format : String
  args : List ν
  deriving DecidableEq

/-- The UI-thread side: the UI runtime (`getUIRuntime()`) and the invocations the layout
animations manager has received so far, oldest first. -/
structure UIState (ν R : Type) where
  uiRuntime : R
  managerCalls : List (ManagerCall ν)

/-- What a call on the main side can touch: the process's standard output, the jobs handed
to `uiScheduler_` and not yet run (oldest first), and the UI-thread side. -/
structure World (ν R : Type) where
  stdout : List (PrintfCall ν)
  uiQueue : List (UIState ν R → UIState ν R)
  ui : UIState ν R

/-- Modelled from the spec: `uiScheduler_->scheduleOnUI(job)`, the scheduler is an outside
collaborator; it keeps the job for later, after the jobs posted before it. -/
def scheduleOnUI {ν R : Type} (job : UIState ν R → UIState ν R) (w : World ν R) : World ν R :=
  { w with uiQueue := w.uiQueue ++ [job] }

/-- Modelled from the spec: the manager is an outside collaborator; receiving
`startLayoutAnimation(rt, tag, type, yogaValues)` is recorded as one more invocation. -/
def startLayoutAnimation {ν R : Type} (tag : Int) (type : LayoutAnimationType)
    (yogaValues : JsObject ν) (u : UIState ν R) : UIState ν R :=
  { u with managerCalls := u.managerCalls ++ [⟨tag, type, yogaValues⟩] }

/-- Modelled from the spec: the UI scheduler runs every posted job exactly once, in the
order posted. -/
def runUI {ν R : Type} (w : World ν R) : World ν R :=
  { w with uiQueue := [], ui := w.uiQueue.foldl (fun u job => job u) w.ui }

/-- The call `printf(format, args...)`. -/
def printf {ν R : Type} (format : String) (args : List ν) (w : World ν R) : World ν R :=
  { w with stdout := w.stdout ++ [⟨format, args⟩] }

/-- The function `LayoutAnimationsProxy::startAnimation`. -/
def startAnimation {ν R : Type} (tag : Int) (type : LayoutAnimationType) (values : Values ν)
    (w : World ν R) : World ν R :=
  let w := printf "start aniamtion %f %f %f %f"
    [values.x, values.y, values.width, values.height] w
  scheduleOnUI (fun u =>
    let yogaValues : JsObject ν := []
    let yogaValues := setProperty yogaValues "originX" values.x
    let yogaValues := setProperty yogaValues "originY" values.y
    let yogaValues := setProperty yogaValues "width" values.width
    let yogaValues := setProperty yogaValues "height" values.height
    startLayoutAnimation tag type yogaValues u) w

/-- The function `LayoutAnimationsProxy::startLayoutLayoutAnimation`. -/
def startLayoutLayoutAnimation {ν R : Type} (tag : Int) (currentValues targetValues : Values ν)
    (w : World ν R) : World ν R :=
  scheduleOnUI (fun u =>
    let yogaValues : JsObject ν := []
    let yogaValues := setProperty yogaValues "currentOriginX" currentValues.x
    let yogaValues := setProperty yogaValues "currentOriginY" currentValues.y
    let yogaValues := setProperty yogaValues "currentWidth" currentValues.width
    let yogaValues := setProperty yogaValues "currentHeight" currentValues.height
    let yogaValues := setProperty yogaValues "targetOriginX" targetValues.x
    let yogaValues := setProperty yogaValues "targetOriginY" targetValues.y
    let yogaValues := setProperty yogaValues "targetWidth" targetValues.width
    let yogaValues := setProperty yogaValues "targetHeight" targetValues.height
    startLayoutAnimation tag LayoutAnimationType.LAYOUT yogaValues u) w

/-- A world in which nothing has happened yet. -/
def World.initial {ν R : Type} (rt : R) : World ν R :=
  { stdout := [], uiQueue := [], ui := { uiRuntime := rt, managerCalls := [] } }

/-! ## UIRuntimeDecorator -/

/-- A `jsi::Value` as a host function receives it: its kind and payload, an object being
known by reference. -/
inductive Value (ν : Type) where
  | undefined
  | null
  | bool (b : Bool)
  | number (x : ν)
  | string (s : String)
  | object (ref : Nat)
  deriving DecidableEq

/-- What a call inside the UI runtime can fail with: whatever a host operation throws, or
the `jsi::JSError` the runtime raises on a wrong kind of value. -/
inductive Failure (ε : Type) where
  | host (e : ε)
  | jsError (message : String)
  deriving DecidableEq

/-- The call `value.asString(rt)`: the string when the value is one, a `jsi::JSError` otherwise. -/
def Value.asString {ν ε : Type} : Value ν → Except (Failure ε) String
  | Value.string s => Except.ok s
  | _ => Except.error (Failure.jsError "expected a String")

/-- The call `s.c_str()` as its receiver reads it, a NUL-terminated name: the characters
before the first NUL. -/
def c_str (s : String) : String := ⟨s.data.takeWhile (fun c => c ≠ Char.ofNat 0)⟩

/-- The lambda installed as `_measurePaper`, capturing `measure`. -/
def measurePaperShim {R ν ε : Type} (measure : Int → Except (Failure ε) (List (String × ν)))
    (_rt : R) (viewTag : Int) : Except (Failure ε) (JsObject ν) := do
  let result ← measure viewTag
  let resultObject : JsObject ν := []
  let resultObject := result.foldl
    (fun resultObject item => setProperty resultObject (c_str item.1) item.2) resultObject
  return resultObject

/-- The lambda installed as `_obtainProp` when RCT_NEW_ARCH_ENABLED is defined, capturing
`obtainPropFabricFunction`. -/
def obtainPropFabricShim {R ν ε ρ : Type}
    (obtainPropFabricFunction : R → Value ν → String → Except (Failure ε) ρ)
    (rt : R) (shadowNodeWrapper : Value ν) (propName : Value ν) : Except (Failure ε) ρ := do
  let name ← propName.asString
  obtainPropFabricFunction rt shadowNodeWrapper name

/-- The lambda installed as `_obtainProp` when RCT_NEW_ARCH_ENABLED is not defined, capturing
`obtainPropFunction`. -/
def obtainPropPaperShim {R ν ε ρ : Type}
    (obtainPropFunction : R → Int → String → Except (Failure ε) ρ)
    (rt : R) (viewTag : Int) (name : Value ν) : Except (Failure ε) ρ := do
  let name ← name.asString
  obtainPropFunction rt viewTag name

/-- What `installJsiFunction` can be handed in `decorate`: a callable `decorate` received
(its C++ type is declared in another header, so it is a reference of type `F`),
or one of the three lambdas `decorate` builds itself, told apart by their signature. -/
inductive HostFunction (F R ν ε ρ : Type) where
  | native (f : F)
  | ofViewTag (g : R → Int → Except (Failure ε) (JsObject ν))
  | ofNodeAndName (g : R → Value ν → Value ν → Except (Failure ε) ρ)
  | ofViewTagAndName (g : R → Int → Value ν → Except (Failure ε) ρ)

/-- What a name of a runtime's global scope is bound to. -/
inductive GlobalValue (F R ν ε ρ : Type) where
  | value (v : Value ν)
  | hostFunction (h : HostFunction F R ν ε ρ)

/-- A `jsi::Runtime &`: which runtime. -/
abbrev RuntimeRef := Nat

/-- The global object of every runtime of the process. -/
abbrev Runtimes (F R ν ε ρ : Type) := RuntimeRef → JsObject (GlobalValue F R ν ε ρ)

/-- The arguments of `decorate` after `uiRuntime` when RCT_NEW_ARCH_ENABLED is defined. -/
structure FabricCallables (F R ν ε ρ : Type) where
  removeFromPropsRegistry : F
  obtainPropFabricFunction : R → Value ν → String → Except (Failure ε) ρ
  updateProps : F
  measure : F
  dispatchCommand : F
  requestAnimationFrame : F
  getAnimationTimestamp : F
  setGestureState : F
  progressLayoutAnimation : F
  endLayoutAnimation : F
  maybeFlushUIUpdatesQueue : F

/-- The arguments of `decorate` after `uiRuntime` when RCT_NEW_ARCH_ENABLED is not defined. -/
structure PaperCallables (F R ν ε ρ : Type) where
  scrollTo : F
  obtainPropFunction : R → Int → String → Except (Failure ε) ρ
  updateProps : F
  measure : Int → Except (Failure ε) (List (String × ν))
  dispatchCommand : F
  requestAnimationFrame : F
  getAnimationTimestamp : F
  setGestureState : F
  progressLayoutAnimation : F
  endLayoutAnimation : F
  maybeFlushUIUpdatesQueue : F

/-- The two builds of `decorate`: RCT_NEW_ARCH_ENABLED defined (`fabric`) or not (`paper`),
each with the arguments of that build. -/
inductive DecorateArgs (F R ν ε ρ : Type) where
  | fabric (c : FabricCallables F R ν ε ρ)
  | paper (c : PaperCallables F R ν ε ρ)

/-- A statement of the body of `decorate`, with the runtime it is given. -/
inductive Stmt (F R ν ε ρ : Type) where
  | setGlobalProperty (rt : RuntimeRef) (name : String) (value : Value ν)
  | installJsiFunction (rt : RuntimeRef) (name : String) (function : HostFunction F R ν ε ρ)

/-- The statement `rt.global().setProperty(rt, name, value)`. -/
def setGlobalProperty {F R ν ε ρ : Type} (rt : RuntimeRef) (name : String) (value : Value ν)
    (rts : Runtimes F R ν ε ρ) : Runtimes F R ν ε ρ :=
  Function.update rts rt (setProperty (rts rt) name (GlobalValue.value value))

/-- Modelled from the spec: `jsi_utils::installJsiFunction(rt, name, function)` is defined
in ReanimatedJSIUtils.h; it exposes `function` as a named
callable value in the global scope of `rt`. -/
def installJsiFunction {F R ν ε ρ : Type} (rt : RuntimeRef) (name : String)
    (function : HostFunction F R ν ε ρ) (rts : Runtimes F R ν ε ρ) : Runtimes F R ν ε ρ :=
  Function.update rts rt (setProperty (rts rt) name (GlobalValue.hostFunction function))

/-- Running one statement. -/
def Stmt.exec {F R ν ε ρ : Type} : Stmt F R ν ε ρ → Runtimes F R ν ε ρ → Runtimes F R ν ε ρ
  | Stmt.setGlobalProperty rt name value => reanimated.setGlobalProperty rt name value
  | Stmt.installJsiFunction rt name function => reanimated.installJsiFunction rt name function

/-- Running statements one after the other. -/
def execAll {F R ν ε ρ : Type} (stmts : List (Stmt F R ν ε ρ)) (rts : Runtimes F R ν ε ρ) :
    Runtimes F R ν ε ρ :=
  stmts.foldl (fun rts stmt => stmt.exec rts) rts

/-- The body of `UIRuntimeDecorator::decorate`, statement by statement, in either build. -/
def decorateBody {F R ν ε ρ : Type} (uiRuntime : RuntimeRef) :
    DecorateArgs F R ν ε ρ → List (Stmt F R ν ε ρ)
  | DecorateArgs.fabric c =>
    [ Stmt.setGlobalProperty uiRuntime "_UI" (Value.bool true),
      Stmt.installJsiFunction uiRuntime "_updatePropsFabric" (HostFunction.native c.updateProps),
      Stmt.installJsiFunction uiRuntime "_removeFromPropsRegistry"
        (HostFunction.native c.removeFromPropsRegistry),
      Stmt.installJsiFunction uiRuntime "_dispatchCommandFabric"
        (HostFunction.native c.dispatchCommand),
      Stmt.installJsiFunction uiRuntime "_measureFabric" (HostFunction.native c.measure),
      Stmt.installJsiFunction uiRuntime "requestAnimationFrame"
        (HostFunction.native c.requestAnimationFrame),
      Stmt.installJsiFunction uiRuntime "_getAnimationTimestamp"
        (HostFunction.native c.getAnimationTimestamp),
      Stmt.installJsiFunction uiRuntime "_notifyAboutProgress"
        (HostFunction.native c.progressLayoutAnimation),
      Stmt.installJsiFunction uiRuntime "_notifyAboutEnd"
        (HostFunction.native c.endLayoutAnimation),
      Stmt.installJsiFunction uiRuntime "_setGestureState" (HostFunction.native c.setGestureState),
      Stmt.installJsiFunction uiRuntime "_maybeFlushUIUpdatesQueue"
        (HostFunction.native c.maybeFlushUIUpdatesQueue),
      Stmt.installJsiFunction uiRuntime "_obtainProp"
        (HostFunction.ofNodeAndName (obtainPropFabricShim c.obtainPropFabricFunction)) ]
  | DecorateArgs.paper c =>
    [ Stmt.setGlobalProperty uiRuntime "_UI" (Value.bool true),
      Stmt.installJsiFunction uiRuntime "_updatePropsPaper" (HostFunction.native c.updateProps),
      Stmt.installJsiFunction uiRuntime "_dispatchCommandPaper"
        (HostFunction.native c.dispatchCommand),
      Stmt.installJsiFunction uiRuntime "_scrollToPaper" (HostFunction.native c.scrollTo),
      Stmt.installJsiFunction uiRuntime "_measurePaper"
        (HostFunction.ofViewTag (measurePaperShim c.measure)),
      Stmt.installJsiFunction uiRuntime "requestAnimationFrame"
        (HostFunction.native c.requestAnimationFrame),
      Stmt.installJsiFunction uiRuntime "_getAnimationTimestamp"
        (HostFunction.native c.getAnimationTimestamp),
      Stmt.installJsiFunction uiRuntime "_notifyAboutProgress"
        (HostFunction.native c.progressLayoutAnimation),
      Stmt.installJsiFunction uiRuntime "_notifyAboutEnd"
        (HostFunction.native c.endLayoutAnimation),
      Stmt.installJsiFunction uiRuntime "_setGestureState" (HostFunction.native c.setGestureState),
      Stmt.installJsiFunction uiRuntime "_maybeFlushUIUpdatesQueue"
        (HostFunction.native c.maybeFlushUIUpdatesQueue),
      Stmt.installJsiFunction uiRuntime "_obtainProp"
        (HostFunction.ofViewTagAndName (obtainPropPaperShim c.obtainPropFunction)) ]

/-- The function `UIRuntimeDecorator::decorate`: its body run from first statement to last. -/
def decorate {F R ν ε ρ : Type} (uiRuntime : RuntimeRef) (args : DecorateArgs F R ν ε ρ)
    (rts : Runtimes F R ν ε ρ) : Runtimes F R ν ε ρ :=
  execAll (decorateBody uiRuntime args) rts

/-- The runtime a statement is given. -/
def Stmt.target {F R ν ε ρ : Type} : Stmt F R ν ε ρ → RuntimeRef
  | Stmt.setGlobalProperty rt _ _ => rt
  | Stmt.installJsiFunction rt _ _ => rt

/-- The global name a statement binds and the value it binds it to. -/
def Stmt.write {F R ν ε ρ : Type} : Stmt F R ν ε ρ → String × GlobalValue F R ν ε ρ
  | Stmt.setGlobalProperty _ name value => (name, GlobalValue.value value)
  | Stmt.installJsiFunction _ name function => (name, GlobalValue.hostFunction function)

/-- Setting properties one after the other. -/
def setAll {β : Type} (o : JsObject β) (writes : List (String × β)) : JsObject β :=
  writes.foldl (fun o w => setProperty o w.1 w.2) o

/-! ## Sample arguments -/

/-- Callables of the build with RCT_NEW_ARCH_ENABLED, each native one known by its name. -/
def sampleFabric : FabricCallables String Unit Int String Int where
  removeFromPropsRegistry := "removeFromPropsRegistry"
  obtainPropFabricFunction := fun _ _ name =>
    if name = "" then Except.error (Failure.host "no such prop") else Except.ok name.length
  updateProps := "updateProps"
  measure := "measure"
  dispatchCommand := "dispatchCommand"
  requestAnimationFrame := "requestAnimationFrame"
  getAnimationTimestamp := "getAnimationTimestamp"
  setGestureState := "setGestureState"
  progressLayoutAnimation := "progressLayoutAnimation"
  endLayoutAnimation := "endLayoutAnimation"
  maybeFlushUIUpdatesQueue := "maybeFlushUIUpdatesQueue"

/-- Callables of the build without RCT_NEW_ARCH_ENABLED, each native one known by its name. -/
def samplePaper : PaperCallables String Unit Int String Int where
  scrollTo := "scrollTo"
  obtainPropFunction := fun _ viewTag name =>
    if viewTag = 0 then Except.error (Failure.host "no such view") else Except.ok name.length
  updateProps := "updateProps"
  measure := fun viewTag =>
    if viewTag = 0 then Except.error (Failure.host "no such view")
    else Except.ok [("x", 0), ("y", 0), ("width", 30), ("height", 40)]
  dispatchCommand := "dispatchCommand"
  requestAnimationFrame := "requestAnimationFrame"
  getAnimationTimestamp := "getAnimationTimestamp"
  setGestureState := "setGestureState"
  progressLayoutAnimation := "progressLayoutAnimation"
  endLayoutAnimation := "endLayoutAnimation"
  maybeFlushUIUpdatesQueue := "maybeFlushUIUpdatesQueue"

/-- A measure callable whose result names the field x twice. -/
def measureRepeatedName : Int → Except (Failure String) (List (String × Int)) :=
  fun _ => Except.ok [("x", 1), ("x", 2)]

/-- A measure callable whose result has a field name with a NUL character inside. -/
def measureNulName : Int → Except (Failure String) (List (String × Int)) :=
  fun _ => Except.ok [("a\x00b", 1)]

/-- Runtimes whose global scopes are all empty. -/
def emptyRuntimes : Runtimes String Unit Int String Int := fun _ => []

/-! ## Properties of a jsi::Object -/

theorem getProperty_setProperty_self {β : Type} (o : JsObject β) (k : String) (v : β) :
    getProperty (setProperty o k v) k = some v := by
  induction o with
  | nil => simp [setProperty, getProperty]
  | cons p rest ih =>
    obtain ⟨k', v'⟩ := p
    by_cases h : k' = k
    · simp [setProperty, getProperty, h]
    · simp [setProperty, getProperty, h, ih]

theorem getProperty_setProperty_of_ne {β : Type} (o : JsObject β) {k name : String}
    (hne : k ≠ name) (v : β) :
    getProperty (setProperty o k v) name = getProperty o name := by
  induction o with
  | nil => simp [setProperty, getProperty, hne]
  | cons p rest ih =>
    obtain ⟨k', v'⟩ := p
    by_cases h : k' = k
    · subst h
      simp [setProperty, getProperty, hne]
    · by_cases h' : k' = name
      · subst h'
        simp [setProperty, getProperty, h]
      · simp [setProperty, getProperty, h, h', ih]

theorem setAll_cons {β : Type} (o : JsObject β) (w : String × β) (ws : List (String × β)) :
    setAll o (w :: ws) = setAll (setProperty o w.1 w.2) ws := rfl

theorem setAll_append {β : Type} (o : JsObject β) (ws ws' : List (String × β)) :
    setAll o (ws ++ ws') = setAll (setAll o ws) ws' := by
  simp [setAll, List.foldl_append]

theorem getProperty_setAll_of_not_mem {β : Type} {ws : List (String × β)} {name : String}
    (h : name ∉ ws.map Prod.fst) (o : JsObject β) :
    getProperty (setAll o ws) name = getProperty o name := by
  induction ws generalizing o with
  | nil => rfl
  | cons w rest ih =>
    simp only [List.map_cons, List.mem_cons, not_or] at h
    rw [setAll_cons, ih h.2, getProperty_setProperty_of_ne o (Ne.symm h.1)]

theorem getProperty_setAll_last {β : Type} (o : JsObject β) (pre post : List (String × β))
    (k : String) (v : β) (h : k ∉ post.map Prod.fst) :
    getProperty (setAll o (pre ++ (k, v) :: post)) k = some v := by
  rw [setAll_append, setAll_cons, getProperty_setAll_of_not_mem h,
    getProperty_setProperty_self]

theorem mem_of_getProperty_setAll {β : Type} {ws : List (String × β)} {k : String} {v : β}
    (o : JsObject β) (h : getProperty (setAll o ws) k = some v) :
    (k, v) ∈ ws ∨ getProperty o k = some v := by
  induction ws generalizing o with
  | nil => exact Or.inr h
  | cons w rest ih =>
    obtain ⟨k', v'⟩ := w
    rw [setAll_cons] at h
    rcases ih _ h with hmem | hget
    · exact Or.inl (List.mem_cons_of_mem _ hmem)
    · by_cases hk : k' = k
      · subst hk
        rw [getProperty_setProperty_self] at hget
        simp only [Option.some.injEq] at hget
        subst hget
        exact Or.inl (List.mem_cons_self _ _)
      · rw [getProperty_setProperty_of_ne o hk] at hget
        exact Or.inr hget

theorem getProperty_setAll_of_mem {β : Type} {ws : List (String × β)}
    (hnd : (ws.map Prod.fst).Nodup) {k : String} {v : β} (h : (k, v) ∈ ws) (o : JsObject β) :
    getProperty (setAll o ws) k = some v := by
  obtain ⟨pre, post, rfl⟩ := List.append_of_mem h
  apply getProperty_setAll_last
  rw [List.map_append, List.map_cons, List.nodup_append] at hnd
  exact (List.nodup_cons.mp hnd.2.1).1

/-! ## Properties of running statements -/

theorem Stmt.exec_eq {F R ν ε ρ : Type} (s : Stmt F R ν ε ρ) (rts : Runtimes F R ν ε ρ) :
    s.exec rts = Function.update rts s.target (setProperty (rts s.target) s.write.1 s.write.2) := by
  cases s <;> rfl

theorem execAll_target {F R ν ε ρ : Type} {stmts : List (Stmt F R ν ε ρ)} {ui : RuntimeRef}
    (h : ∀ s ∈ stmts, s.target = ui) (rts : Runtimes F R ν ε ρ) :
    execAll stmts rts ui = setAll (rts ui) (stmts.map Stmt.write) := by
  induction stmts generalizing rts with
  | nil => rfl
  | cons s rest ih =>
    have hs : s.target = ui := h s (List.mem_cons_self _ _)
    have hrest : ∀ s' ∈ rest, s'.target = ui := fun s' hs' => h s' (List.mem_cons_of_mem _ hs')
    show execAll rest (s.exec rts) ui = _
    rw [ih hrest, Stmt.exec_eq, hs, Function.update_same]
    rfl

theorem execAll_other {F R ν ε ρ : Type} {stmts : List (Stmt F R ν ε ρ)} {ui : RuntimeRef}
    (h : ∀ s ∈ stmts, s.target = ui) (rts : Runtimes F R ν ε ρ) {other : RuntimeRef}
    (hne : other ≠ ui) : execAll stmts rts other = rts other := by
  induction stmts generalizing rts with
  | nil => rfl
  | cons s rest ih =>
    have hs : s.target = ui := h s (List.mem_cons_self _ _)
    have hrest : ∀ s' ∈ rest, s'.target = ui := fun s' hs' => h s' (List.mem_cons_of_mem _ hs')
    show execAll rest (s.exec rts) other = _
    rw [ih hrest, Stmt.exec_eq, hs, Function.update_noteq hne]

theorem decorateBody_target {F R ν ε ρ : Type} (ui : RuntimeRef) (args : DecorateArgs F R ν ε ρ) :
    ∀ s ∈ decorateBody ui args, s.target = ui := by
  intro s hs
  cases args <;> simp [decorateBody] at hs <;> rcases hs with h | h | h | h | h | h | h | h | h | h | h | h <;>
    subst h <;> rfl

theorem decorateBody_names_nodup {F R ν ε ρ : Type} (ui : RuntimeRef)
    (args : DecorateArgs F R ν ε ρ) :
    (((decorateBody ui args).map Stmt.write).map Prod.fst).Nodup := by
  cases args <;> simp [decorateBody, Stmt.write]

theorem decorate_get_of_mem {F R ν ε ρ : Type} (ui : RuntimeRef) (args : DecorateArgs F R ν ε ρ)
    (rts : Runtimes F R ν ε ρ) {name : String} {v : GlobalValue F R ν ε ρ}
    (h : (name, v) ∈ (decorateBody ui args).map Stmt.write) :
    getProperty (decorate ui args rts ui) name = some v := by
  rw [decorate, execAll_target (decorateBody_target ui args)]
  exact getProperty_setAll_of_mem (decorateBody_names_nodup ui args) h _

theorem decorate_get_of_not_mem {F R ν ε ρ : Type} (ui : RuntimeRef)
    (args : DecorateArgs F R ν ε ρ) (rts : Runtimes F R ν ε ρ) {name : String}
    (h : name ∉ ((decorateBody ui args).map Stmt.write).map Prod.fst) :
    getProperty (decorate ui args rts ui) name = getProperty (rts ui) name := by
  rw [decorate, execAll_target (decorateBody_target ui args)]
  exact getProperty_setAll_of_not_mem h _

theorem decorateBody_shape {F R ν ε ρ : Type} (ui : RuntimeRef) (args : DecorateArgs F R ν ε ρ) :
    ∃ installs : List (Stmt F R ν ε ρ),
      decorateBody ui args = Stmt.setGlobalProperty ui "_UI" (Value.bool true) :: installs ∧
      ∀ s ∈ installs, ∃ name function, s = Stmt.installJsiFunction ui name function ∧
        name ≠ "_UI" := by
  cases args with
  | fabric c =>
    refine ⟨_, rfl, ?_⟩
    intro s hs
    simp only [List.mem_cons, List.mem_nil_iff, or_false] at hs
    rcases hs with h | h | h | h | h | h | h | h | h | h | h <;>
      exact ⟨_, _, h, by decide⟩
  | paper c =>
    refine ⟨_, rfl, ?_⟩
    intro s hs
    simp only [List.mem_cons, List.mem_nil_iff, or_false] at hs
    rcases hs with h | h | h | h | h | h | h | h | h | h | h <;>
      exact ⟨_, _, h, by decide⟩

theorem c_str_eq_self {s : String} (h : Char.ofNat 0 ∉ s.data) : c_str s = s := by
  have htw : s.data.takeWhile (fun c => decide (c ≠ Char.ofNat 0)) = s.data := by
    rw [List.takeWhile_eq_self_iff]
    intro c hc
    have hne : c ≠ Char.ofNat 0 := fun hz => h (hz ▸ hc)
    simpa using hne
  show (⟨s.data.takeWhile (fun c => decide (c ≠ Char.ofNat 0))⟩ : String) = s
  rw [htw]

theorem foldl_setProperty_c_str {ν : Type} (result : List (String × ν))
    (h : ∀ item ∈ result, Char.ofNat 0 ∉ item.1.data) (o : JsObject ν) :
    result.foldl (fun resultObject item => setProperty resultObject (c_str item.1) item.2) o
      = setAll o result := by
  induction result generalizing o with
  | nil => rfl
  | cons item rest ih =>
    rw [List.foldl_cons, c_str_eq_self (h item (List.mem_cons_self _ _)), setAll_cons]
    exact ih (fun item' h' => h item' (List.mem_cons_of_mem _ h')) _

/-! ## Theorems: LayoutAnimationsProxy -/

/-- C1: `startAnimation` adds exactly one job at the end of the UI scheduler's queue, and
running that job makes the manager receive exactly one more `startLayoutAnimation`
invocation, with the same tag, the same type, and a new object whose properties are exactly
originX, originY, width, height holding `values.x`, `values.y`, `values.width`,
`values.height`; the job changes nothing else on the UI side. -/
theorem startAnimation_posts_one_job {ν R : Type} (tag : Int) (type : LayoutAnimationType)
    (values : Values ν) (w : World ν R) :
    ∃ job : UIState ν R → UIState ν R,
      (startAnimation tag type values w).uiQueue = w.uiQueue ++ [job] ∧
      ∀ u : UIState ν R,
        (job u).managerCalls = u.managerCalls ++
          [⟨tag, type, [("originX", values.x), ("originY", values.y),
            ("width", values.width), ("height", values.height)]⟩] ∧
        (job u).uiRuntime = u.uiRuntime := by
  refine ⟨_, rfl, fun u => ⟨?_, rfl⟩⟩
  simp [startLayoutAnimation, setProperty]

/-- C2: `startLayoutLayoutAnimation` (the spec's startLayoutTransitionAnimation) adds exactly
one job at the end of the UI scheduler's queue, and running that job makes the manager receive
exactly one more `startLayoutAnimation` invocation, with the same tag, the type LAYOUT, and an
object of exactly eight properties: currentOriginX, currentOriginY, currentWidth,
currentHeight from `currentValues` and targetOriginX, targetOriginY, targetWidth,
targetHeight from `targetValues`. -/
theorem startLayoutLayoutAnimation_posts_one_job {ν R : Type} (tag : Int)
    (currentValues targetValues : Values ν) (w : World ν R) :
    ∃ job : UIState ν R → UIState ν R,
      (startLayoutLayoutAnimation tag currentValues targetValues w).uiQueue
        = w.uiQueue ++ [job] ∧
      ∀ u : UIState ν R,
        (job u).managerCalls = u.managerCalls ++
          [⟨tag, LayoutAnimationType.LAYOUT,
            [("currentOriginX", currentValues.x), ("currentOriginY", currentValues.y),
             ("currentWidth", currentValues.width), ("currentHeight", currentValues.height),
             ("targetOriginX", targetValues.x), ("targetOriginY", targetValues.y),
             ("targetWidth", targetValues.width), ("targetHeight", targetValues.height)]⟩] ∧
        (job u).uiRuntime = u.uiRuntime := by
  refine ⟨_, rfl, fun u => ⟨?_, rfl⟩⟩
  simp [startLayoutAnimation, setProperty]

/-- C3: the call `startAnimation(42, ENTERING, {1, 2, 3, 4})` in a world where nothing has
happened yet: when it returns, one `printf` call has written to standard output, while one
job is queued, the manager has received nothing and the UI runtime is as it was. -/
theorem startAnimation_prints :
    (startAnimation 42 LayoutAnimationType.ENTERING (⟨1, 2, 3, 4⟩ : Values Int)
        (World.initial ())).stdout
      = [⟨"start aniamtion %f %f %f %f", [1, 2, 3, 4]⟩] ∧
    (startAnimation 42 LayoutAnimationType.ENTERING (⟨1, 2, 3, 4⟩ : Values Int)
        (World.initial ())).uiQueue.length = 1 ∧
    (startAnimation 42 LayoutAnimationType.ENTERING (⟨1, 2, 3, 4⟩ : Values Int)
        (World.initial ())).ui.managerCalls = [] ∧
    (startAnimation 42 LayoutAnimationType.ENTERING (⟨1, 2, 3, 4⟩ : Values Int)
        (World.initial ())).ui.uiRuntime = () := by
  refine ⟨rfl, rfl, rfl, rfl⟩

/-- C8: after any list of `startAnimation` calls, once the UI scheduler has run every posted
job once in post order, the queue is empty and the manager has received, after whatever the
jobs posted earlier made it receive, exactly one invocation per call, in call order, the
i-th carrying the tag, the type and the four values of the i-th call. -/
theorem startAnimation_calls_paired {ν R : Type}
    (calls : List (Int × LayoutAnimationType × Values ν)) (w : World ν R) :
    (runUI (calls.foldl (fun w c => startAnimation c.1 c.2.1 c.2.2 w) w)).uiQueue = [] ∧
    (runUI (calls.foldl (fun w c => startAnimation c.1 c.2.1 c.2.2 w) w)).ui.managerCalls
      = (runUI w).ui.managerCalls ++ calls.map (fun c =>
          (⟨c.1, c.2.1, [("originX", c.2.2.x), ("originY", c.2.2.y),
            ("width", c.2.2.width), ("height", c.2.2.height)]⟩ : ManagerCall ν)) := by
  refine ⟨rfl, ?_⟩
  induction calls generalizing w with
  | nil => simp
  | cons c rest ih =>
    rw [List.foldl_cons, ih, List.map_cons]
    have h : (runUI (startAnimation c.1 c.2.1 c.2.2 w)).ui.managerCalls
        = (runUI w).ui.managerCalls ++
          [⟨c.1, c.2.1, [("originX", c.2.2.x), ("originY", c.2.2.y),
            ("width", c.2.2.width), ("height", c.2.2.height)]⟩] := by
      simp [runUI, startAnimation, scheduleOnUI, printf, startLayoutAnimation, setProperty,
        List.foldl_append]
    rw [h, List.append_assoc, List.singleton_append]

/-! ## Theorems: UIRuntimeDecorator -/

/-- C4: after `decorate`, whatever the global scope held before, each bridge name of the UI
runtime's global scope is bound to the callable supplied for that operation and to no
other: directly for the callables `decorate` installs as they are, and through the lambda
`decorate` wraps around it for measure in the build without RCT_NEW_ARCH_ENABLED and for
obtain-prop in both builds; `_UI` is bound to true and every other name is bound as before.
The wrapping lambdas resolve to the supplied callable: the function bound to `_obtainProp`,
called with a property name that is a string, returns what the supplied obtain-prop callable
returns on the same arguments, its value or its failure; the function bound to
`_measurePaper` calls the supplied measure on the view tag, fails as it fails, and otherwise
returns the object made by setting each entry of its result in list order. -/
theorem decorate_bindings {F R ν ε ρ : Type} (ui : RuntimeRef) (rts : Runtimes F R ν ε ρ) :
    (∀ c : FabricCallables F R ν ε ρ,
      (∀ (rt : R) (shadowNodeWrapper : Value ν) (propName : String),
        obtainPropFabricShim c.obtainPropFabricFunction rt shadowNodeWrapper
            (Value.string propName)
          = c.obtainPropFabricFunction rt shadowNodeWrapper propName) ∧
      ∀ name : String, getProperty (decorate ui (DecorateArgs.fabric c) rts ui) name =
        if name = "_updatePropsFabric" then
          some (GlobalValue.hostFunction (HostFunction.native c.updateProps))
        else if name = "_removeFromPropsRegistry" then
          some (GlobalValue.hostFunction (HostFunction.native c.removeFromPropsRegistry))
        else if name = "_dispatchCommandFabric" then
          some (GlobalValue.hostFunction (HostFunction.native c.dispatchCommand))
        else if name = "_measureFabric" then
          some (GlobalValue.hostFunction (HostFunction.native c.measure))
        else if name = "requestAnimationFrame" then
          some (GlobalValue.hostFunction (HostFunction.native c.requestAnimationFrame))
        else if name = "_getAnimationTimestamp" then
          some (GlobalValue.hostFunction (HostFunction.native c.getAnimationTimestamp))
        else if name = "_notifyAboutProgress" then
          some (GlobalValue.hostFunction (HostFunction.native c.progressLayoutAnimation))
        else if name = "_notifyAboutEnd" then
          some (GlobalValue.hostFunction (HostFunction.native c.endLayoutAnimation))
        else if name = "_setGestureState" then
          some (GlobalValue.hostFunction (HostFunction.native c.setGestureState))
        else if name = "_maybeFlushUIUpdatesQueue" then
          some (GlobalValue.hostFunction (HostFunction.native c.maybeFlushUIUpdatesQueue))
        else if name = "_obtainProp" then
          some (GlobalValue.hostFunction
            (HostFunction.ofNodeAndName (obtainPropFabricShim c.obtainPropFabricFunction)))
        else if name = "_UI" then some (GlobalValue.value (Value.bool true))
        else getProperty (rts ui) name) ∧
    (∀ c : PaperCallables F R ν ε ρ,
      (∀ (rt : R) (viewTag : Int),
        measurePaperShim c.measure rt viewTag
          = (c.measure viewTag).map (fun result => result.foldl
              (fun resultObject item => setProperty resultObject (c_str item.1) item.2) [])) ∧
      (∀ (rt : R) (viewTag : Int) (propName : String),
        obtainPropPaperShim c.obtainPropFunction rt viewTag (Value.string propName : Value ν)
          = c.obtainPropFunction rt viewTag propName) ∧
      ∀ name : String, getProperty (decorate ui (DecorateArgs.paper c) rts ui) name =
        if name = "_updatePropsPaper" then
          some (GlobalValue.hostFunction (HostFunction.native c.updateProps))
        else if name = "_scrollToPaper" then
          some (GlobalValue.hostFunction (HostFunction.native c.scrollTo))
        else if name = "_dispatchCommandPaper" then
          some (GlobalValue.hostFunction (HostFunction.native c.dispatchCommand))
        else if name = "_measurePaper" then
          some (GlobalValue.hostFunction (HostFunction.ofViewTag (measurePaperShim c.measure)))
        else if name = "requestAnimationFrame" then
          some (GlobalValue.hostFunction (HostFunction.native c.requestAnimationFrame))
        else if name = "_getAnimationTimestamp" then
          some (GlobalValue.hostFunction (HostFunction.native c.getAnimationTimestamp))
        else if name = "_notifyAboutProgress" then
          some (GlobalValue.hostFunction (HostFunction.native c.progressLayoutAnimation))
        else if name = "_notifyAboutEnd" then
          some (GlobalValue.hostFunction (HostFunction.native c.endLayoutAnimation))
        else if name = "_setGestureState" then
          some (GlobalValue.hostFunction (HostFunction.native c.setGestureState))
        else if name = "_maybeFlushUIUpdatesQueue" then
          some (GlobalValue.hostFunction (HostFunction.native c.maybeFlushUIUpdatesQueue))
        else if name = "_obtainProp" then
          some (GlobalValue.hostFunction
            (HostFunction.ofViewTagAndName (obtainPropPaperShim c.obtainPropFunction)))
        else if name = "_UI" then some (GlobalValue.value (Value.bool true))
        else getProperty (rts ui) name) := by
  refine ⟨fun c => ⟨fun _ _ _ => rfl, ?_⟩, fun c => ⟨?_, fun _ _ _ => rfl, ?_⟩⟩
  · intro name
    by_cases h0 : name = "_updatePropsFabric"
    · subst h0
      rw [if_pos rfl]
      apply decorate_get_of_mem
      simp only [decorateBody, List.map, Stmt.write]
      repeat (first | exact List.mem_cons_self _ _ | apply List.mem_cons_of_mem)
    rw [if_neg h0]
    by_cases h1 : name = "_removeFromPropsRegistry"
    · subst h1
      rw [if_pos rfl]
      apply decorate_get_of_mem
      simp only [decorateBody, List.map, Stmt.write]
      repeat (first | exact List.mem_cons_self _ _ | apply List.mem_cons_of_mem)
    rw [if_neg h1]
    by_cases h2 : name = "_dispatchCommandFabric"
    · subst h2
      rw [if_pos rfl]
      apply decorate_get_of_mem
      simp only [decorateBody, List.map, Stmt.write]
      repeat (first | exact List.mem_cons_self _ _ | apply List.mem_cons_of_mem)
    rw [if_neg h2]
    by_cases h3 : name = "_measureFabric"
    · subst h3
      rw [if_pos rfl]
      apply decorate_get_of_mem
      simp only [decorateBody, List.map, Stmt.write]
      repeat (first | exact List.mem_cons_self _ _ | apply List.mem_cons_of_mem)
    rw [if_neg h3]
    by_cases h4 : name = "requestAnimationFrame"
    · subst h4
      rw [if_pos rfl]
      apply decorate_get_of_mem
      simp only [decorateBody, List.map, Stmt.write]
      repeat (first | exact List.mem_cons_self _ _ | apply List.mem_cons_of_mem)
    rw [if_neg h4]
    by_cases h5 : name = "_getAnimationTimestamp"
    · subst h5
      rw [if_pos rfl]
      apply decorate_get_of_mem
      simp only [decorateBody, List.map, Stmt.write]
      repeat (first | exact List.mem_cons_self _ _ | apply List.mem_cons_of_mem)
    rw [if_neg h5]
    by_cases h6 : name = "_notifyAboutProgress"
    · subst h6
      rw [if_pos rfl]
      apply decorate_get_of_mem
      simp only [decorateBody, List.map, Stmt.write]
      repeat (first | exact List.mem_cons_self _ _ | apply List.mem_cons_of_mem)
    rw [if_neg h6]
    by_cases h7 : name = "_notifyAboutEnd"
    · subst h7
      rw [if_pos rfl]
      apply decorate_get_of_mem
      simp only [decorateBody, List.map, Stmt.write]
      repeat (first | exact List.mem_cons_self _ _ | apply List.mem_cons_of_mem)
    rw [if_neg h7]
    by_cases h8 : name = "_setGestureState"
    · subst h8
      rw [if_pos rfl]
      apply decorate_get_of_mem
      simp only [decorateBody, List.map, Stmt.write]
      repeat (first | exact List.mem_cons_self _ _ | apply List.mem_cons_of_mem)
    rw [if_neg h8]
    by_cases h9 : name = "_maybeFlushUIUpdatesQueue"
    · subst h9
      rw [if_pos rfl]
      apply decorate_get_of_mem
      simp only [decorateBody, List.map, Stmt.write]
      repeat (first | exact List.mem_cons_self _ _ | apply List.mem_cons_of_mem)
    rw [if_neg h9]
    by_cases h10 : name = "_obtainProp"
    · subst h10
      rw [if_pos rfl]
      apply decorate_get_of_mem
      simp only [decorateBody, List.map, Stmt.write]
      repeat (first | exact List.mem_cons_self _ _ | apply List.mem_cons_of_mem)
    rw [if_neg h10]
    by_cases h11 : name = "_UI"
    · subst h11
      rw [if_pos rfl]
      apply decorate_get_of_mem
      simp only [decorateBody, List.map, Stmt.write]
      repeat (first | exact List.mem_cons_self _ _ | apply List.mem_cons_of_mem)
    rw [if_neg h11]
    apply decorate_get_of_not_mem
    intro hmem
    simp only [decorateBody, List.map, Stmt.write, List.mem_cons, List.mem_nil_iff,
      List.not_mem_nil, or_false] at hmem
    tauto
  · intro rt viewTag
    simp only [measurePaperShim]
    cases c.measure viewTag <;> rfl
  · intro name
    by_cases h0 : name = "_updatePropsPaper"
    · subst h0
      rw [if_pos rfl]
      apply decorate_get_of_mem
      simp only [decorateBody, List.map, Stmt.write]
      repeat (first | exact List.mem_cons_self _ _ | apply List.mem_cons_of_mem)
    rw [if_neg h0]
    by_cases h1 : name = "_scrollToPaper"
    · subst h1
      rw [if_pos rfl]
      apply decorate_get_of_mem
      simp only [decorateBody, List.map, Stmt.write]
      repeat (first | exact List.mem_cons_self _ _ | apply List.mem_cons_of_mem)
    rw [if_neg h1]
    by_cases h2 : name = "_dispatchCommandPaper"
    · subst h2
      rw [if_pos rfl]
      apply decorate_get_of_mem
      simp only [decorateBody, List.map, Stmt.write]
      repeat (first | exact List.mem_cons_self _ _ | apply List.mem_cons_of_mem)
    rw [if_neg h2]
    by_cases h3 : name = "_measurePaper"
    · subst h3
      rw [if_pos rfl]
      apply decorate_get_of_mem
      simp only [decorateBody, List.map, Stmt.write]
      repeat (first | exact List.mem_cons_self _ _ | apply List.mem_cons_of_mem)
    rw [if_neg h3]
    by_cases h4 : name = "requestAnimationFrame"
    · subst h4
      rw [if_pos rfl]
      apply decorate_get_of_mem
      simp only [decorateBody, List.map, Stmt.write]
      repeat (first | exact List.mem_cons_self _ _ | apply List.mem_cons_of_mem)
    rw [if_neg h4]
    by_cases h5 : name = "_getAnimationTimestamp"
    · subst h5
      rw [if_pos rfl]
      apply decorate_get_of_mem
      simp only [decorateBody, List.map, Stmt.write]
      repeat (first | exact List.mem_cons_self _ _ | apply List.mem_cons_of_mem)
    rw [if_neg h5]
    by_cases h6 : name = "_notifyAboutProgress"
    · subst h6
      rw [if_pos rfl]
      apply decorate_get_of_mem
      simp only [decorateBody, List.map, Stmt.write]
      repeat (first | exact List.mem_cons_self _ _ | apply List.mem_cons_of_mem)
    rw [if_neg h6]
    by_cases h7 : name = "_notifyAboutEnd"
    · subst h7
      rw [if_pos rfl]
      apply decorate_get_of_mem
      simp only [decorateBody, List.map, Stmt.write]
      repeat (first | exact List.mem_cons_self _ _ | apply List.mem_cons_of_mem)
    rw [if_neg h7]
    by_cases h8 : name = "_setGestureState"
    · subst h8
      rw [if_pos rfl]
      apply decorate_get_of_mem
      simp only [decorateBody, List.map, Stmt.write]
      repeat (first | exact List.mem_cons_self _ _ | apply List.mem_cons_of_mem)
    rw [if_neg h8]
    by_cases h9 : name = "_maybeFlushUIUpdatesQueue"
    · subst h9
      rw [if_pos rfl]
      apply decorate_get_of_mem
      simp only [decorateBody, List.map, Stmt.write]
      repeat (first | exact List.mem_cons_self _ _ | apply List.mem_cons_of_mem)
    rw [if_neg h9]
    by_cases h10 : name = "_obtainProp"
    · subst h10
      rw [if_pos rfl]
      apply decorate_get_of_mem
      simp only [decorateBody, List.map, Stmt.write]
      repeat (first | exact List.mem_cons_self _ _ | apply List.mem_cons_of_mem)
    rw [if_neg h10]
    by_cases h11 : name = "_UI"
    · subst h11
      rw [if_pos rfl]
      apply decorate_get_of_mem
      simp only [decorateBody, List.map, Stmt.write]
      repeat (first | exact List.mem_cons_self _ _ | apply List.mem_cons_of_mem)
    rw [if_neg h11]
    apply decorate_get_of_not_mem
    intro hmem
    simp only [decorateBody, List.map, Stmt.write, List.mem_cons, List.mem_nil_iff,
      List.not_mem_nil, or_false] at hmem
    tauto

/-- C5, the claim as stated fails. The measure callable answers `[("x", 1), ("x", 2)]`: the
object `_measurePaper` returns is `{x: 2}`, and the list entry `("x", 1)` is not a property
of it with that value. The measure callable answers one entry whose name is a, NUL, b: the
object returned has the property a and no property of the entry's name. -/
theorem measurePaperShim_repeated_name :
    (measureRepeatedName 7 = Except.ok [("x", 1), ("x", 2)] ∧
      measurePaperShim measureRepeatedName () 7 = Except.ok [("x", 2)] ∧
      ¬ (∀ item ∈ [("x", (1 : Int)), ("x", 2)],
          getProperty [("x", (2 : Int))] item.1 = some item.2)) ∧
    (measureNulName 7 = Except.ok [("a\x00b", 1)] ∧
      measurePaperShim measureNulName () 7 = Except.ok [("a", 1)] ∧
      getProperty [("a", (1 : Int))] "a\x00b" = none) := by
  refine ⟨⟨rfl, rfl, ?_⟩, rfl, rfl, by decide⟩
  intro h
  have h1 := h ("x", 1) (List.mem_cons_self _ _)
  simp [getProperty] at h1

/-- C5 as amended: when the measure callable answers a list whose field names hold no NUL
character, the lambda installed as `_measurePaper` returns an object in which every list
entry whose name does not come again later in the list is a property with that name and
value, and every property of which is an entry of the list. -/
theorem measurePaperShim_object {R ν ε : Type}
    (measure : Int → Except (Failure ε) (List (String × ν))) (rt : R) (viewTag : Int)
    (result : List (String × ν)) (hresult : measure viewTag = Except.ok result)
    (hnul : ∀ item ∈ result, Char.ofNat 0 ∉ item.1.data) :
    ∃ resultObject, measurePaperShim measure rt viewTag = Except.ok resultObject ∧
      (∀ pre name value post, result = pre ++ (name, value) :: post →
        name ∉ post.map Prod.fst → getProperty resultObject name = some value) ∧
      (∀ name value, getProperty resultObject name = some value → (name, value) ∈ result) := by
  refine ⟨setAll [] result, ?_, ?_, ?_⟩
  · simp only [measurePaperShim, hresult]
    rw [← foldl_setProperty_c_str result hnul]
    rfl
  · intro pre name value post hsplit hlast
    rw [hsplit]
    exact getProperty_setAll_last _ _ _ _ _ hlast
  · intro name value hget
    rcases mem_of_getProperty_setAll _ hget with hmem | hnone
    · exact hmem
    · simp [getProperty] at hnone

/-- C5 as amended, at a view whose measure answers x, y, width, height. -/
theorem measurePaperShim_object_witness :
    samplePaper.measure 1 = Except.ok [("x", 0), ("y", 0), ("width", 30), ("height", 40)] ∧
    (∀ item ∈ [("x", (0 : Int)), ("y", 0), ("width", 30), ("height", 40)],
      Char.ofNat 0 ∉ item.1.data) ∧
    ∃ resultObject, measurePaperShim samplePaper.measure () 1 = Except.ok resultObject ∧
      (∀ pre name value post,
        [("x", (0 : Int)), ("y", 0), ("width", 30), ("height", 40)]
          = pre ++ (name, value) :: post →
        name ∉ post.map Prod.fst → getProperty resultObject name = some value) ∧
      (∀ name value, getProperty resultObject name = some value →
        (name, value) ∈ [("x", (0 : Int)), ("y", 0), ("width", 30), ("height", 40)]) :=
  ⟨rfl, by decide,
    measurePaperShim_object samplePaper.measure () 1 _ rfl (by decide)⟩

/-- C6: in either build and whatever the global scopes held before, `_UI` reads true in the
global scope of the runtime given to `decorate` once `decorate` has run, and the global scope
of every other runtime is as it was. -/
theorem decorate_sets_UI {F R ν ε ρ : Type} (ui : RuntimeRef) (args : DecorateArgs F R ν ε ρ)
    (rts : Runtimes F R ν ε ρ) :
    getProperty (decorate ui args rts ui) "_UI" = some (GlobalValue.value (Value.bool true)) ∧
    ∀ other : RuntimeRef, other ≠ ui → decorate ui args rts other = rts other := by
  constructor
  · apply decorate_get_of_mem
    cases args <;> exact List.mem_cons_self _ _
  · intro other hne
    exact execAll_other (decorateBody_target ui args) rts hne

/-- C6 with runtime 1 decorated and runtime 0 looked at. -/
theorem decorate_sets_UI_witness :
    getProperty (decorate 1 (DecorateArgs.paper samplePaper) emptyRuntimes 1) "_UI"
      = some (GlobalValue.value (Value.bool true)) ∧
    (0 : RuntimeRef) ≠ 1 ∧
    decorate 1 (DecorateArgs.paper samplePaper) emptyRuntimes 0 = emptyRuntimes 0 :=
  ⟨(decorate_sets_UI 1 (DecorateArgs.paper samplePaper) emptyRuntimes).1, by decide,
    (decorate_sets_UI 1 (DecorateArgs.paper samplePaper) emptyRuntimes).2 0 (by decide)⟩

/-- C7: in either build the first statement of `decorate` is the write `_UI = true` to the
given runtime and every statement after it installs a function under a name other than
`_UI`; so after the first statement and after each later one, `_UI` reads true in that
runtime's global scope, whatever the scope held before. -/
theorem decorate_UI_first {F R ν ε ρ : Type} (ui : RuntimeRef) (args : DecorateArgs F R ν ε ρ)
    (rts : Runtimes F R ν ε ρ) :
    (∃ installs : List (Stmt F R ν ε ρ),
      decorateBody ui args = Stmt.setGlobalProperty ui "_UI" (Value.bool true) :: installs ∧
      ∀ s ∈ installs, ∃ name function, s = Stmt.installJsiFunction ui name function ∧
        name ≠ "_UI") ∧
    ∀ k : Nat, getProperty (execAll ((decorateBody ui args).take (k + 1)) rts ui) "_UI"
      = some (GlobalValue.value (Value.bool true)) := by
  refine ⟨decorateBody_shape ui args, ?_⟩
  intro k
  obtain ⟨installs, hbody, hinstalls⟩ := decorateBody_shape ui args
  have htarget : ∀ s ∈ (decorateBody ui args).take (k + 1), s.target = ui :=
    fun s hs => decorateBody_target ui args s (List.mem_of_mem_take hs)
  rw [execAll_target htarget, hbody, List.take_succ_cons, List.map_cons, setAll_cons]
  rw [getProperty_setAll_of_not_mem]
  · exact getProperty_setProperty_self _ _ _
  · intro hmem
    rw [List.map_map, List.mem_map] at hmem
    obtain ⟨s, hs, hname⟩ := hmem
    obtain ⟨name, function, rfl, hne⟩ := hinstalls s (List.mem_of_mem_take hs)
    exact hne hname

/-- C7 after the first three statements of the build without RCT_NEW_ARCH_ENABLED. -/
theorem decorate_UI_first_witness :
    Stmt.installJsiFunction 1 "_dispatchCommandPaper" (HostFunction.native "dispatchCommand")
      ∈ (decorateBody 1 (DecorateArgs.paper samplePaper)).take 3 ∧
    getProperty (execAll ((decorateBody 1 (DecorateArgs.paper samplePaper)).take 3)
      emptyRuntimes 1) "_UI" = some (GlobalValue.value (Value.bool true)) :=
  ⟨by simp [decorateBody, samplePaper],
    (decorate_UI_first 1 (DecorateArgs.paper samplePaper) emptyRuntimes).2 2⟩

/-- C9: the lambdas `decorate` builds pass a failure of the callable they wrap on as it is:
when `measure` fails, `_measurePaper` fails with that failure; when the property name is a
string and the obtain-prop callable fails on it, `_obtainProp` fails with that failure, in
either build. -/
theorem shims_pass_failure_on (R ν ε ρ : Type) :
    (∀ (measure : Int → Except (Failure ε) (List (String × ν))) (rt : R) (viewTag : Int)
        (e : Failure ε),
      measure viewTag = Except.error e →
        measurePaperShim measure rt viewTag = Except.error e) ∧
    (∀ (obtainPropFabricFunction : R → Value ν → String → Except (Failure ε) ρ) (rt : R)
        (shadowNodeWrapper propName : Value ν) (name : String) (e : Failure ε),
      (propName.asString : Except (Failure ε) String) = Except.ok name →
      obtainPropFabricFunction rt shadowNodeWrapper name = Except.error e →
        obtainPropFabricShim obtainPropFabricFunction rt shadowNodeWrapper propName
          = Except.error e) ∧
    (∀ (obtainPropFunction : R → Int → String → Except (Failure ε) ρ) (rt : R)
        (viewTag : Int) (propName : Value ν) (name : String) (e : Failure ε),
      (propName.asString : Except (Failure ε) String) = Except.ok name →
      obtainPropFunction rt viewTag name = Except.error e →
        obtainPropPaperShim obtainPropFunction rt viewTag propName = Except.error e) := by
  refine ⟨?_, ?_, ?_⟩
  · intro measure rt viewTag e h
    simp only [measurePaperShim, h]
    rfl
  · intro f rt node propName name e hname h
    simp only [obtainPropFabricShim, hname]
    exact h
  · intro f rt viewTag propName name e hname h
    simp only [obtainPropPaperShim, hname]
    exact h

/-- C9 at a measure that fails for view 0 and obtain-prop callables that fail. -/
theorem shims_pass_failure_on_witness :
    samplePaper.measure 0 = Except.error (Failure.host "no such view") ∧
    measurePaperShim samplePaper.measure () 0 = Except.error (Failure.host "no such view") ∧
    sampleFabric.obtainPropFabricFunction () (Value.object 5) ""
      = Except.error (Failure.host "no such prop") ∧
    obtainPropFabricShim sampleFabric.obtainPropFabricFunction () (Value.object 5)
      (Value.string "") = Except.error (Failure.host "no such prop") ∧
    samplePaper.obtainPropFunction () 0 "width" = Except.error (Failure.host "no such view") ∧
    obtainPropPaperShim samplePaper.obtainPropFunction () 0 (Value.string "width" : Value Int)
      = Except.error (Failure.host "no such view") :=
  ⟨rfl, (shims_pass_failure_on Unit Int String Int).1 samplePaper.measure () 0 _ rfl,
    rfl, (shims_pass_failure_on Unit Int String Int).2.1 sampleFabric.obtainPropFabricFunction
      () (Value.object 5) (Value.string "") "" _ rfl rfl,
    rfl, (shims_pass_failure_on Unit Int String Int).2.2 samplePaper.obtainPropFunction
      () 0 (Value.string "width") "width" _ rfl rfl⟩

end reanimated
